import Mathlib

/-!
Shallow embedding of the junction-proximity storyteller
(`modules/storytelling/story_tellers/close_to_junction_teller.cc`).

The external HD-map query service is modelled as a structure of functions
from a query point and search radius to the ranked candidate list the map
returns; a candidate is `Option PolygonCandidate` because the C++ vector
holds shared pointers that may be null.  The C++ `double` quantities
(arc length `s`, coordinates, distances, the configured flags) are
modelled as integers: the algorithm only ever compares, subtracts and
tests the sign of these quantities, so the embedding is uniform in which
ordered ring carries them, and integers keep every statement decidable
by evaluation.  The cross-call static variable
`overlapping_junction_id` is threaded explicitly as a `hyst` argument and
result field.  The out-parameter `type`, which the C++ leaves
unassigned on non-decisive paths, is modelled as `Option JunctionType`
with `none` meaning "never assigned".
-/

namespace CloseToJunctionTellerModel

/-- A planned trajectory path point: 2D position `(x, y)` and arc length `s`. -/
structure PathPoint where
  x : ℤ
  y : ℤ
  s : ℤ
deriving DecidableEq

/-- One junction candidate returned by the map query: its id string and the
number of vertices of its polygon (`polygon().point_size()`). -/
structure PolygonCandidate where
  id : String
  polygonPointSize : Nat
deriving DecidableEq

/-- The external HD-map query service (`HDMapUtil::BaseMap()`): each query takes
the point coordinates and a search radius and returns the ranked candidate
list.  An entry is `none` when the stored shared pointer is null. -/
structure HDMap where
  GetPNCJunctions : ℤ → ℤ → ℤ → List (Option PolygonCandidate)
  GetJunctions : ℤ → ℤ → ℤ → List (Option PolygonCandidate)

/-- `CloseToJunction::JunctionType` from the story proto. -/
inductive JunctionType where
  | JUNCTION
  | PNC_JUNCTION
deriving DecidableEq

/-- `IsPointInPNCJunction`: query PNC junctions at the point; fail when the
candidate list is empty or its front is null; succeed with the front
candidate's id when its polygon has at least 3 points.  `some id` models
"returns true with `*pnc_junction_id = id`". -/
def IsPointInPNCJunction (map : HDMap) (searchRadius : ℤ) (point : PathPoint) :
    Option String :=
  match map.GetPNCJunctions point.x point.y searchRadius with
  | [] => none
  | none :: _ => none
  | some info :: _ =>
      if info.polygonPointSize ≥ 3 then some info.id else none

/-- `IsPointInJunction`: same shape as `IsPointInPNCJunction` but against the
plain-junction map layer. -/
def IsPointInJunction (map : HDMap) (searchRadius : ℤ) (point : PathPoint) :
    Option String :=
  match map.GetJunctions point.x point.y searchRadius with
  | [] => none
  | none :: _ => none
  | some info :: _ =>
      if info.polygonPointSize ≥ 3 then some info.id else none

/-- The observable outcome of `GetNearestJunction`: the three out-parameters
(`id`, `type`, `distance`) plus the value of the static
`overlapping_junction_id` after the call. -/
structure ScanResult where
  id : String
  type : Option JunctionType
  distance : ℤ
  hyst : String
deriving DecidableEq

/-- The scan loop of `GetNearestJunction`, one recursion step per trajectory
point.  `hyst` is the running value of the static `overlapping_junction_id`;
`sStart` is the first trajectory point's `s`.  The non-decisive exits return
`id = ""`, `distance = -1` (the initialisation at the top of the C++
function) and leave `type` unassigned. -/
def GetNearestJunctionLoop (map : HDMap) (searchRadius maxDist sStart : ℤ)
    (hyst : String) : List PathPoint → ScanResult
  | [] => ⟨"", none, -1, hyst⟩
  | point :: rest =>
      if point.s > maxDist then ⟨"", none, -1, hyst⟩
      else
        let junction := IsPointInJunction map searchRadius point
        let pnc := IsPointInPNCJunction map searchRadius point
        match pnc with
        | some pncId =>
            ⟨pncId, some JunctionType.PNC_JUNCTION, point.s - sStart,
              junction.getD ""⟩
        | none =>
            match junction with
            | some junctionId =>
                if junctionId ≠ hyst then
                  ⟨junctionId, some JunctionType.JUNCTION, point.s - sStart,
                    hyst⟩
                else
                  ⟨"", none, -1, hyst⟩
            | none => GetNearestJunctionLoop map searchRadius maxDist sStart "" rest

/-- `GetNearestJunction`: sets `*id = ""`, `*distance = -1`, reads `s_start`
from the first trajectory point, then runs the scan loop.  The C++ indexes
`trajectory_point(0)`, so callers guarantee a non-empty trajectory; on the
empty list the `getD 0` default is irrelevant because the loop returns the
sentinel immediately. -/
def GetNearestJunction (map : HDMap) (searchRadius maxDist : ℤ) (hyst : String)
    (traj : List PathPoint) : ScanResult :=
  GetNearestJunctionLoop map searchRadius maxDist
    ((traj.head?.map PathPoint.s).getD 0) hyst traj

/-- The `close_to_junction` story proto message: id, type, distance.  The
`type` field holds whatever the local `type` variable held when
`set_type(type)` ran (see `ScanResult.type`). -/
structure CloseToJunction where
  id : String
  type : Option JunctionType
  distance : ℤ
deriving DecidableEq

/-- The `Stories` proto: presence of `close_to_junction` is the two-state
story lifecycle (present = ACTIVE, absent = INACTIVE). -/
structure Stories where
  close_to_junction : Option CloseToJunction
deriving DecidableEq

/-- The log lines `CloseToJunctionTeller::Update` can emit. -/
inductive LogEvent where
  | planningNotReady
  | enterCloseToJunction
  | exitCloseToJunction
deriving DecidableEq

/-- Observable outcome of one `CloseToJunctionTeller::Update` call: the static
`overlapping_junction_id` afterwards, the stories record afterwards, and the
log lines emitted during the call. -/
structure UpdateResult where
  hyst : String
  stories : Stories
  logs : List LogEvent
deriving DecidableEq

/-- `CloseToJunctionTeller::Update`.  `trajectory` is the latest observed
planning trajectory (`none` models a null pointer from the reader).  On a
missing or empty trajectory the call logs "not ready" and returns without
touching the story or the static hysteresis state.  Otherwise it scans and
either installs/overwrites the story (distance ≥ 0, logging Enter on the
absent→present edge) or clears it (logging Exit when it was present). -/
def Update (map : HDMap) (searchRadius maxDist : ℤ)
    (trajectory : Option (List PathPoint)) (hyst : String) (stories : Stories) :
    UpdateResult :=
  match trajectory with
  | none => ⟨hyst, stories, [LogEvent.planningNotReady]⟩
  | some [] => ⟨hyst, stories, [LogEvent.planningNotReady]⟩
  | some (p :: ps) =>
      let r := GetNearestJunction map searchRadius maxDist hyst (p :: ps)
      if r.distance ≥ 0 then
        ⟨r.hyst, ⟨some ⟨r.id, r.type, r.distance⟩⟩,
          if stories.close_to_junction.isNone then
            [LogEvent.enterCloseToJunction]
          else []⟩
      else if stories.close_to_junction.isSome then
        ⟨r.hyst, ⟨none⟩, [LogEvent.exitCloseToJunction]⟩
      else
        ⟨r.hyst, stories, []⟩

/-- One controller cycle viewed as a transformer of the cross-call state
(the static hysteresis string and the shared stories record). -/
def UpdateStep (map : HDMap) (searchRadius maxDist : ℤ)
    (trajectory : Option (List PathPoint)) (st : String × Stories) :
    String × Stories :=
  let u := Update map searchRadius maxDist trajectory st.1 st.2
  (u.hyst, u.stories)

/-- `n` successive controller cycles on a fixed trajectory snapshot and fixed
map data. -/
def UpdateIterN (map : HDMap) (searchRadius maxDist : ℤ)
    (trajectory : Option (List PathPoint)) : Nat → String × Stories → String × Stories
  | 0, st => st
  | Nat.succ n, st =>
      UpdateIterN map searchRadius maxDist trajectory n
        (UpdateStep map searchRadius maxDist trajectory st)

/-- A map with the given PNC and plain candidate lists at coordinate `(1, 1)`
and no junction anywhere else; used to instantiate witnesses. -/
def mapWithAt (pnc plain : List (Option PolygonCandidate)) : HDMap where
  GetPNCJunctions := fun x y _ => if x = 1 ∧ y = 1 then pnc else []
  GetJunctions := fun x y _ => if x = 1 ∧ y = 1 then plain else []

/-- Modelled from the spec (§4.1): what the spec says the point classifier
computes from the map answer — only the first candidate is consulted; absent,
null, or degenerate (< 3 vertices) first candidates mean "not found".  Stated
over the head of the candidate list so that agreement with the code-derived
classifiers expresses that later candidates are never considered. -/
def specClassifyFirstCandidate : Option (Option PolygonCandidate) → Option String
  | none => none
  | some none => none
  | some (some c) => if c.polygonPointSize < 3 then none else some c.id

lemma GetNearestJunctionLoop_nil (map : HDMap) (r m s : ℤ) (h : String) :
    GetNearestJunctionLoop map r m s h [] = ⟨"", none, -1, h⟩ := rfl

lemma GetNearestJunctionLoop_far (map : HDMap) (r m s : ℤ) (h : String)
    (p : PathPoint) (rest : List PathPoint) (hfar : p.s > m) :
    GetNearestJunctionLoop map r m s h (p :: rest) = ⟨"", none, -1, h⟩ := by
  simp [GetNearestJunctionLoop, hfar]

lemma GetNearestJunctionLoop_pnc (map : HDMap) (r m s : ℤ) (h : String)
    (p : PathPoint) (rest : List PathPoint) (pid : String)
    (hnear : p.s ≤ m) (hpnc : IsPointInPNCJunction map r p = some pid) :
    GetNearestJunctionLoop map r m s h (p :: rest)
      = ⟨pid, some JunctionType.PNC_JUNCTION, p.s - s,
          (IsPointInJunction map r p).getD ""⟩ := by
  simp [GetNearestJunctionLoop, hnear.not_lt, hpnc]

lemma GetNearestJunctionLoop_plain (map : HDMap) (r m s : ℤ) (h : String)
    (p : PathPoint) (rest : List PathPoint) (jid : String)
    (hnear : p.s ≤ m) (hpnc : IsPointInPNCJunction map r p = none)
    (hj : IsPointInJunction map r p = some jid) :
    GetNearestJunctionLoop map r m s h (p :: rest)
      = if jid = h then ⟨"", none, -1, h⟩
        else ⟨jid, some JunctionType.JUNCTION, p.s - s, h⟩ := by
  by_cases hjh : jid = h
  · simp [GetNearestJunctionLoop, hnear.not_lt, hpnc, hj, hjh]
  · simp [GetNearestJunctionLoop, hnear.not_lt, hpnc, hj, hjh]

lemma GetNearestJunctionLoop_neither (map : HDMap) (r m s : ℤ) (h : String)
    (p : PathPoint) (rest : List PathPoint)
    (hnear : p.s ≤ m) (hpnc : IsPointInPNCJunction map r p = none)
    (hj : IsPointInJunction map r p = none) :
    GetNearestJunctionLoop map r m s h (p :: rest)
      = GetNearestJunctionLoop map r m s "" rest := by
  simp [GetNearestJunctionLoop, hnear.not_lt, hpnc, hj]

/-- Points within the cutoff that lie in neither junction kind are passed
over, clearing the hysteresis id (unless there were none of them). -/
lemma GetNearestJunctionLoop_skip (map : HDMap) (r m s : ℤ) :
    ∀ (pre : List PathPoint),
      (∀ q ∈ pre, q.s ≤ m ∧ IsPointInPNCJunction map r q = none ∧
        IsPointInJunction map r q = none) →
      ∀ (h : String) (rest : List PathPoint),
        GetNearestJunctionLoop map r m s h (pre ++ rest)
          = GetNearestJunctionLoop map r m s (if pre = [] then h else "") rest := by
  intro pre
  induction pre with
  | nil => intro _ h rest; simp
  | cons q pre ih =>
      intro hpre h rest
      obtain ⟨hq, hqpnc, hqj⟩ := hpre q (List.mem_cons_self q pre)
      have hrest : ∀ q ∈ pre, q.s ≤ m ∧ IsPointInPNCJunction map r q = none ∧
          IsPointInJunction map r q = none :=
        fun q hq => hpre q (List.mem_cons_of_mem _ hq)
      rw [List.cons_append,
        GetNearestJunctionLoop_neither map r m s h q (pre ++ rest) hq hqpnc hqj,
        ih hrest "" rest]
      simp

/-- Every run of the scan loop either takes no decisive branch (sentinel
distance, empty id, unassigned type) or stops decisively at some in-window
trajectory point, reporting that point's offset from `s`. -/
lemma GetNearestJunctionLoop_cases (map : HDMap) (r m s : ℤ) :
    ∀ (pts : List PathPoint) (h : String),
      ((GetNearestJunctionLoop map r m s h pts).type = none ∧
        (GetNearestJunctionLoop map r m s h pts).id = "" ∧
        (GetNearestJunctionLoop map r m s h pts).distance = -1) ∨
      (∃ q ∈ pts, q.s ≤ m ∧
        (GetNearestJunctionLoop map r m s h pts).distance = q.s - s ∧
        (GetNearestJunctionLoop map r m s h pts).type ≠ none) := by
  intro pts
  induction pts with
  | nil => intro h; left; simp [GetNearestJunctionLoop_nil]
  | cons p rest ih =>
      intro h
      by_cases hfar : p.s > m
      · left; simp [GetNearestJunctionLoop_far map r m s h p rest hfar]
      · have hnear : p.s ≤ m := not_lt.mp hfar
        cases hpnc : IsPointInPNCJunction map r p with
        | some pid =>
            right
            refine ⟨p, List.mem_cons_self p rest, hnear, ?_, ?_⟩ <;>
              simp [GetNearestJunctionLoop_pnc map r m s h p rest pid hnear hpnc]
        | none =>
            cases hj : IsPointInJunction map r p with
            | some jid =>
                rw [GetNearestJunctionLoop_plain map r m s h p rest jid hnear hpnc hj]
                by_cases hjh : jid = h
                · left; simp [hjh]
                · right
                  refine ⟨p, List.mem_cons_self p rest, hnear, ?_, ?_⟩ <;>
                    simp [hjh]
            | none =>
                rw [GetNearestJunctionLoop_neither map r m s h p rest hnear hpnc hj]
                rcases ih "" with hleft | ⟨q, hq, hqm, hqd, hqt⟩
                · left; exact hleft
                · right; exact ⟨q, List.mem_cons_of_mem _ hq, hqm, hqd, hqt⟩

/-- Rescanning with the hysteresis id the previous scan left behind
reproduces the previous scan's result exactly. -/
lemma GetNearestJunctionLoop_restable (map : HDMap) (r m s : ℤ) :
    ∀ (pts : List PathPoint) (h : String),
      GetNearestJunctionLoop map r m s
          (GetNearestJunctionLoop map r m s h pts).hyst pts
        = GetNearestJunctionLoop map r m s h pts := by
  intro pts h
  cases pts with
  | nil => rfl
  | cons p rest =>
      by_cases hfar : p.s > m
      · rw [GetNearestJunctionLoop_far map r m s h p rest hfar]
        exact GetNearestJunctionLoop_far map r m s h p rest hfar
      · have hnear : p.s ≤ m := not_lt.mp hfar
        cases hpnc : IsPointInPNCJunction map r p with
        | some pid =>
            rw [GetNearestJunctionLoop_pnc map r m s h p rest pid hnear hpnc]
            exact GetNearestJunctionLoop_pnc map r m s _ p rest pid hnear hpnc
        | none =>
            cases hj : IsPointInJunction map r p with
            | some jid =>
                have e := GetNearestJunctionLoop_plain map r m s h p rest jid hnear hpnc hj
                by_cases hjh : jid = h
                · rw [if_pos hjh] at e
                  rw [e]; exact e
                · rw [if_neg hjh] at e
                  rw [e]; exact e
            | none =>
                rw [GetNearestJunctionLoop_neither map r m s h p rest hnear hpnc hj,
                  GetNearestJunctionLoop_neither map r m s _ p rest hnear hpnc hj]

/-- A scan over points that all lie in neither junction kind reaches no
decisive branch, whatever the window cutoff does. -/
lemma GetNearestJunctionLoop_all_neither (map : HDMap) (r m s : ℤ) :
    ∀ (pts : List PathPoint) (h : String),
      (∀ q ∈ pts, IsPointInPNCJunction map r q = none ∧
        IsPointInJunction map r q = none) →
      (GetNearestJunctionLoop map r m s h pts).id = "" ∧
        (GetNearestJunctionLoop map r m s h pts).type = none ∧
        (GetNearestJunctionLoop map r m s h pts).distance = -1 := by
  intro pts
  induction pts with
  | nil => intro h _; simp [GetNearestJunctionLoop_nil]
  | cons p rest ih =>
      intro h hall
      obtain ⟨hppnc, hpj⟩ := hall p (List.mem_cons_self p rest)
      by_cases hfar : p.s > m
      · simp [GetNearestJunctionLoop_far map r m s h p rest hfar]
      · rw [GetNearestJunctionLoop_neither map r m s h p rest (not_lt.mp hfar) hppnc hpj]
        exact ih "" fun q hq => hall q (List.mem_cons_of_mem _ hq)

/-- C1 (amended). The scan window cutoff is on the raw arc length `s`, not on
the offset `s - s_start`: a point whose `s` strictly exceeds the configured
maximum stops iteration immediately with "no junction found" regardless of
what that point or any later point matches; a point with `s` exactly equal to
the maximum is examined (a PNC match there is honoured); and a point within
the cutoff that matches neither kind is examined and passed over. -/
theorem C1_scan_window_on_raw_s :
    (∀ (map : HDMap) (r m s : ℤ) (h : String) (p : PathPoint)
        (rest : List PathPoint), p.s > m →
      GetNearestJunctionLoop map r m s h (p :: rest) = ⟨"", none, -1, h⟩)
    ∧ (∀ (map : HDMap) (r m s : ℤ) (h : String) (p : PathPoint)
        (rest : List PathPoint) (pid : String), p.s = m →
        IsPointInPNCJunction map r p = some pid →
      GetNearestJunctionLoop map r m s h (p :: rest)
        = ⟨pid, some JunctionType.PNC_JUNCTION, p.s - s,
            (IsPointInJunction map r p).getD ""⟩)
    ∧ (∀ (map : HDMap) (r m s : ℤ) (h : String) (p : PathPoint)
        (rest : List PathPoint), p.s ≤ m →
        IsPointInPNCJunction map r p = none →
        IsPointInJunction map r p = none →
      GetNearestJunctionLoop map r m s h (p :: rest)
        = GetNearestJunctionLoop map r m s "" rest) := by
  refine ⟨GetNearestJunctionLoop_far, fun map r m s h p rest pid hpeq hpnc => ?_,
    GetNearestJunctionLoop_neither⟩
  exact GetNearestJunctionLoop_pnc map r m s h p rest pid (le_of_eq hpeq) hpnc

/-- C1 witness: the three amended clauses at concrete inputs — a point at
`s = 6` beyond the cutoff `5` stops the scan; a PNC point exactly at `s = 5`
is examined and matched; a neither-kind point at `s = 2` is passed over with
the hysteresis id cleared. -/
theorem C1_scan_window_on_raw_s_witness :
    GetNearestJunctionLoop (mapWithAt [some ⟨"P", 3⟩] []) 1 5 0 "" [⟨1, 1, 6⟩]
        = ⟨"", none, -1, ""⟩
    ∧ GetNearestJunctionLoop (mapWithAt [some ⟨"P", 3⟩] []) 1 5 0 "" [⟨1, 1, 5⟩]
        = ⟨"P", some JunctionType.PNC_JUNCTION, 5, ""⟩
    ∧ GetNearestJunctionLoop (mapWithAt [] []) 1 5 0 "X" [⟨1, 1, 2⟩]
        = GetNearestJunctionLoop (mapWithAt [] []) 1 5 0 "" [] := by
  refine ⟨C1_scan_window_on_raw_s.1 (mapWithAt [some ⟨"P", 3⟩] []) 1 5 0 ""
      ⟨1, 1, 6⟩ [] (by decide),
    (C1_scan_window_on_raw_s.2.1 (mapWithAt [some ⟨"P", 3⟩] []) 1 5 0 ""
      ⟨1, 1, 5⟩ [] "P" (by decide) (by decide)).trans (by decide),
    C1_scan_window_on_raw_s.2.2 (mapWithAt [] []) 1 5 0 "X"
      ⟨1, 1, 2⟩ [] (by decide) (by decide) (by decide)⟩

/-- C1 counterexample to the claim as stated.  First scenario: a trajectory
whose single point has `s = 10` (offset `s - s_start = 0`, well inside the
claimed window of `5`) and lies inside a PNC junction, yet the scan examines
nothing and returns the sentinel, because the code compares the raw `s = 10`
against the maximum.  Second scenario: a trajectory starting at `s = -3`
whose second point has offset `7`, strictly beyond the claimed window, yet
the scan examines it and returns its PNC junction with distance `7`. -/
theorem C1_counterexample :
    ((⟨1, 1, 10⟩ : PathPoint).s - (⟨1, 1, 10⟩ : PathPoint).s ≤ 5
      ∧ IsPointInPNCJunction (mapWithAt [some ⟨"P", 3⟩] []) 1 ⟨1, 1, 10⟩ = some "P"
      ∧ GetNearestJunction (mapWithAt [some ⟨"P", 3⟩] []) 1 5 "" [⟨1, 1, 10⟩]
          = ⟨"", none, -1, ""⟩)
    ∧ (¬ ((⟨1, 1, 4⟩ : PathPoint).s - (⟨0, 0, -3⟩ : PathPoint).s ≤ 5)
      ∧ GetNearestJunction (mapWithAt [some ⟨"P", 3⟩] []) 1 5 ""
            [⟨0, 0, -3⟩, ⟨1, 1, 4⟩]
          = ⟨"P", some JunctionType.PNC_JUNCTION, 7, ""⟩) := by decide

/-- C2: at the first examined trajectory point that matches a PNC junction
(all earlier examined points were in-window and matched neither kind), the
scan returns that PNC junction's id with kind PNC_JUNCTION and distance
`s - s_start`, sets the hysteresis id to the co-located plain junction id
when the point also matches a plain junction and clears it otherwise, and
the result is independent of every later trajectory point. -/
theorem C2_pnc_priority (map : HDMap) (r m : ℤ) (h : String)
    (pre : List PathPoint) (p : PathPoint) (post : List PathPoint) (pid : String)
    (hpre : ∀ q ∈ pre, q.s ≤ m ∧ IsPointInPNCJunction map r q = none ∧
      IsPointInJunction map r q = none)
    (hnear : p.s ≤ m) (hpnc : IsPointInPNCJunction map r p = some pid) :
    GetNearestJunction map r m h (pre ++ p :: post)
      = ⟨pid, some JunctionType.PNC_JUNCTION,
          p.s - (((pre ++ p :: post).head?.map PathPoint.s).getD 0),
          (IsPointInJunction map r p).getD ""⟩ := by
  unfold GetNearestJunction
  rw [GetNearestJunctionLoop_skip map r m _ pre hpre h (p :: post)]
  exact GetNearestJunctionLoop_pnc map r m _ _ p post pid hnear hpnc

/-- C2 witness: after one neither-kind point, a point lying in both a PNC
junction "P" and a plain junction "A" yields PNC_JUNCTION with distance 5 and
hysteresis id "A", ignoring the rest of the trajectory. -/
theorem C2_pnc_priority_witness :
    GetNearestJunction (mapWithAt [some ⟨"P", 3⟩] [some ⟨"A", 4⟩]) 1 10 "Z"
        [⟨0, 0, 0⟩, ⟨1, 1, 5⟩, ⟨1, 1, 7⟩]
      = ⟨"P", some JunctionType.PNC_JUNCTION, 5, "A"⟩ := by
  exact (C2_pnc_priority (mapWithAt [some ⟨"P", 3⟩] [some ⟨"A", 4⟩]) 1 10 "Z"
    [⟨0, 0, 0⟩] ⟨1, 1, 5⟩ [⟨1, 1, 7⟩] "P"
    (by decide) (by decide) (by decide)).trans (by decide)

/-- C3: at the first examined trajectory point that matches a plain junction
only, scanning stops (the result ignores all later points); if that plain
junction's id equals the hysteresis id current at that point, the sentinel
"no junction" outcome is returned and the hysteresis id is left as it was,
otherwise the scan returns kind JUNCTION with that id and distance
`s - s_start`. -/
theorem C3_plain_only_hysteresis (map : HDMap) (r m : ℤ) (h : String)
    (pre : List PathPoint) (p : PathPoint) (post : List PathPoint) (jid : String)
    (hpre : ∀ q ∈ pre, q.s ≤ m ∧ IsPointInPNCJunction map r q = none ∧
      IsPointInJunction map r q = none)
    (hnear : p.s ≤ m) (hpnc : IsPointInPNCJunction map r p = none)
    (hj : IsPointInJunction map r p = some jid) :
    GetNearestJunction map r m h (pre ++ p :: post)
      = (if jid = (if pre = [] then h else "")
         then ⟨"", none, -1, (if pre = [] then h else "")⟩
         else ⟨jid, some JunctionType.JUNCTION,
            p.s - (((pre ++ p :: post).head?.map PathPoint.s).getD 0),
            (if pre = [] then h else "")⟩) := by
  unfold GetNearestJunction
  rw [GetNearestJunctionLoop_skip map r m _ pre hpre h (p :: post)]
  exact GetNearestJunctionLoop_plain map r m _ _ p post jid hnear hpnc hj

/-- C3 witness: with hysteresis id "A", a first point inside plain junction
"A" only is suppressed (sentinel result, hysteresis untouched); with the same
match reached after a neither-kind point, the hysteresis id has been cleared
and the match is emitted as JUNCTION with distance 4. -/
theorem C3_plain_only_hysteresis_witness :
    GetNearestJunction (mapWithAt [] [some ⟨"A", 3⟩]) 1 10 "A" [⟨1, 1, 4⟩]
        = ⟨"", none, -1, "A"⟩
    ∧ GetNearestJunction (mapWithAt [] [some ⟨"A", 3⟩]) 1 10 "A"
        [⟨0, 0, 0⟩, ⟨1, 1, 4⟩]
        = ⟨"A", some JunctionType.JUNCTION, 4, ""⟩ := by
  refine ⟨(C3_plain_only_hysteresis (mapWithAt [] [some ⟨"A", 3⟩]) 1 10 "A"
      [] ⟨1, 1, 4⟩ [] "A" (by decide) (by decide) (by decide) (by decide)).trans
      (by decide),
    (C3_plain_only_hysteresis (mapWithAt [] [some ⟨"A", 3⟩]) 1 10 "A"
      [⟨0, 0, 0⟩] ⟨1, 1, 4⟩ [] "A" (by decide) (by decide) (by decide)
      (by decide)).trans (by decide)⟩

/-- C4: an examined trajectory point within the window that matches neither
junction kind clears the hysteresis id and scanning continues with the rest
of the trajectory; consequently, a plain-junction match whose id equals the
formerly stored (non-empty) hysteresis id, reached after such a point, is
emitted as a fresh JUNCTION result rather than suppressed. -/
theorem C4_neither_clears_hysteresis :
    (∀ (map : HDMap) (r m s : ℤ) (h : String) (q : PathPoint)
        (rest : List PathPoint), q.s ≤ m →
        IsPointInPNCJunction map r q = none →
        IsPointInJunction map r q = none →
      GetNearestJunctionLoop map r m s h (q :: rest)
        = GetNearestJunctionLoop map r m s "" rest)
    ∧ (∀ (map : HDMap) (r m : ℤ) (h : String) (q p : PathPoint)
        (post : List PathPoint),
        q.s ≤ m → IsPointInPNCJunction map r q = none →
        IsPointInJunction map r q = none →
        p.s ≤ m → IsPointInPNCJunction map r p = none →
        IsPointInJunction map r p = some h → h ≠ "" →
      GetNearestJunction map r m h (q :: p :: post)
        = ⟨h, some JunctionType.JUNCTION, p.s - q.s, ""⟩) := by
  refine ⟨GetNearestJunctionLoop_neither,
    fun map r m h q p post hqnear hqpnc hqj hpnear hppnc hpj hne => ?_⟩
  show GetNearestJunctionLoop map r m q.s h (q :: p :: post) = _
  rw [GetNearestJunctionLoop_neither map r m q.s h q (p :: post) hqnear hqpnc hqj]
  have e := GetNearestJunctionLoop_plain map r m q.s "" p post h hpnear hppnc hpj
  rw [if_neg hne] at e
  exact e

/-- C4 witness: a neither-kind point at the start clears the hysteresis id
"A", so the following plain-junction-"A" point is emitted as a fresh
JUNCTION result at distance 4 instead of being suppressed. -/
theorem C4_neither_clears_hysteresis_witness :
    GetNearestJunctionLoop (mapWithAt [] [some ⟨"A", 3⟩]) 1 10 0 "A" [⟨0, 0, 0⟩]
        = GetNearestJunctionLoop (mapWithAt [] [some ⟨"A", 3⟩]) 1 10 0 "" []
    ∧ GetNearestJunction (mapWithAt [] [some ⟨"A", 3⟩]) 1 10 "A"
        [⟨0, 0, 0⟩, ⟨1, 1, 4⟩]
        = ⟨"A", some JunctionType.JUNCTION, 4, ""⟩ := by
  refine ⟨C4_neither_clears_hysteresis.1 (mapWithAt [] [some ⟨"A", 3⟩]) 1 10 0 "A"
      ⟨0, 0, 0⟩ [] (by decide) (by decide) (by decide),
    (C4_neither_clears_hysteresis.2 (mapWithAt [] [some ⟨"A", 3⟩]) 1 10 "A"
      ⟨0, 0, 0⟩ ⟨1, 1, 4⟩ [] (by decide) (by decide) (by decide) (by decide)
      (by decide) (by decide) (by decide)).trans (by decide)⟩

/-- C5: when the scan loop takes no decisive branch — in particular whenever
every trajectory point matches neither junction kind, and also when the only
stopping point was a hysteresis-suppressed plain match (the `type` output is
then never assigned) — the scan output is the "no junction found" sentinel:
distance `-1` and the empty id. -/
theorem C5_no_junction_sentinel :
    (∀ (map : HDMap) (r m : ℤ) (h : String) (pts : List PathPoint),
      (∀ q ∈ pts, IsPointInPNCJunction map r q = none ∧
        IsPointInJunction map r q = none) →
      (GetNearestJunction map r m h pts).id = "" ∧
        (GetNearestJunction map r m h pts).type = none ∧
        (GetNearestJunction map r m h pts).distance = -1)
    ∧ (∀ (map : HDMap) (r m : ℤ) (h : String) (pts : List PathPoint),
      (GetNearestJunction map r m h pts).type = none →
      (GetNearestJunction map r m h pts).id = "" ∧
        (GetNearestJunction map r m h pts).distance = -1) := by
  constructor
  · intro map r m h pts hall
    exact GetNearestJunctionLoop_all_neither map r m _ pts h hall
  · intro map r m h pts htype
    rcases GetNearestJunctionLoop_cases map r m
        (((pts.head?).map PathPoint.s).getD 0) pts h with
      ⟨_, hid, hd⟩ | ⟨q, _, _, _, hqt⟩
    · exact ⟨hid, hd⟩
    · exact absurd htype hqt

/-- C5 witness: on a map with no junctions anywhere the scan of a one-point
trajectory returns the sentinel; and in the hysteresis-suppressed scenario
(first point in plain junction "A" with hysteresis id "A") the unassigned
`type` output forces the sentinel distance and empty id. -/
theorem C5_no_junction_sentinel_witness :
    ((GetNearestJunction (mapWithAt [] []) 1 10 "Z" [⟨1, 1, 3⟩]).id = "" ∧
      (GetNearestJunction (mapWithAt [] []) 1 10 "Z" [⟨1, 1, 3⟩]).type = none ∧
      (GetNearestJunction (mapWithAt [] []) 1 10 "Z" [⟨1, 1, 3⟩]).distance = -1)
    ∧ ((GetNearestJunction (mapWithAt [] [some ⟨"A", 3⟩]) 1 10 "A"
          [⟨1, 1, 4⟩]).id = "" ∧
        (GetNearestJunction (mapWithAt [] [some ⟨"A", 3⟩]) 1 10 "A"
          [⟨1, 1, 4⟩]).distance = -1) :=
  ⟨C5_no_junction_sentinel.1 (mapWithAt [] []) 1 10 "Z" [⟨1, 1, 3⟩] (by decide),
    C5_no_junction_sentinel.2 (mapWithAt [] [some ⟨"A", 3⟩]) 1 10 "A"
      [⟨1, 1, 4⟩] (by decide)⟩

lemma GetNearestJunction_restable (map : HDMap) (r m : ℤ) (h : String)
    (traj : List PathPoint) :
    GetNearestJunction map r m (GetNearestJunction map r m h traj).hyst traj
      = GetNearestJunction map r m h traj :=
  GetNearestJunctionLoop_restable map r m _ traj h

/-- One controller cycle starting from the state a cycle just produced
reproduces that state: the cross-call pair (hysteresis id, stories) is a
fixed point of `UpdateStep` after one step. -/
lemma UpdateStep_fix (map : HDMap) (r m : ℤ)
    (traj : Option (List PathPoint)) (st : String × Stories) :
    UpdateStep map r m traj (UpdateStep map r m traj st)
      = UpdateStep map r m traj st := by
  obtain ⟨h, st⟩ := st
  cases traj with
  | none => rfl
  | some pts =>
      cases pts with
      | nil => rfl
      | cons p ps =>
          by_cases hd : (GetNearestJunction map r m h (p :: ps)).distance ≥ 0
          · have hd2 : (GetNearestJunction map r m
                (GetNearestJunction map r m h (p :: ps)).hyst (p :: ps)).distance ≥ 0 := by
              rw [GetNearestJunction_restable]; exact hd
            simp only [UpdateStep, Update, if_pos hd, if_pos hd2]
            simp only [GetNearestJunction_restable map r m h (p :: ps)]
          · have hd2 : ¬ (GetNearestJunction map r m
                (GetNearestJunction map r m h (p :: ps)).hyst (p :: ps)).distance ≥ 0 := by
              rw [GetNearestJunction_restable]; exact hd
            by_cases hs : st.close_to_junction.isSome
            · simp only [UpdateStep, Update, if_neg hd, if_pos hs, if_neg hd2]
              simp [GetNearestJunction_restable map r m h (p :: ps)]
            · simp only [UpdateStep, Update, if_neg hd, if_neg hs, if_neg hd2]
              simp [GetNearestJunction_restable map r m h (p :: ps), hs]

/-- C6: the controller's two-state story lifecycle.  General clauses: on a
non-empty trajectory, when the scan distance is non-negative the story record
becomes present with exactly the scanned id/type/distance and an
enter-transition is logged exactly when the record was previously absent;
when the scan distance is negative the record ends up absent and an
exit-transition is logged exactly when it was previously present.  Concrete
clause: over four cycles whose scan distances are -1, 5, 3, -1, the record is
absent, then present with distance 5 plus one enter log, then present with
distance 3 and no log, then absent with one exit log. -/
theorem C6_story_state_machine :
    (∀ (map : HDMap) (r m : ℤ) (h : String) (st : Stories) (p : PathPoint)
        (ps : List PathPoint),
      (0 ≤ (GetNearestJunction map r m h (p :: ps)).distance →
        (Update map r m (some (p :: ps)) h st).stories
          = ⟨some ⟨(GetNearestJunction map r m h (p :: ps)).id,
              (GetNearestJunction map r m h (p :: ps)).type,
              (GetNearestJunction map r m h (p :: ps)).distance⟩⟩
        ∧ (Update map r m (some (p :: ps)) h st).logs
          = (if st.close_to_junction.isNone
             then [LogEvent.enterCloseToJunction] else []))
      ∧ ((GetNearestJunction map r m h (p :: ps)).distance < 0 →
        (Update map r m (some (p :: ps)) h st).stories.close_to_junction = none
        ∧ (Update map r m (some (p :: ps)) h st).logs
          = (if st.close_to_junction.isSome
             then [LogEvent.exitCloseToJunction] else [])))
    ∧ ((Update (mapWithAt [] [some ⟨"J", 3⟩]) 1 10 (some [⟨0, 0, 0⟩]) ""
          ⟨none⟩).stories = ⟨none⟩
      ∧ (Update (mapWithAt [] [some ⟨"J", 3⟩]) 1 10 (some [⟨0, 0, 0⟩]) ""
          ⟨none⟩).logs = []
      ∧ (Update (mapWithAt [] [some ⟨"J", 3⟩]) 1 10
          (some [⟨0, 0, 0⟩, ⟨1, 1, 5⟩]) "" ⟨none⟩).stories
          = ⟨some ⟨"J", some JunctionType.JUNCTION, 5⟩⟩
      ∧ (Update (mapWithAt [] [some ⟨"J", 3⟩]) 1 10
          (some [⟨0, 0, 0⟩, ⟨1, 1, 5⟩]) "" ⟨none⟩).logs
          = [LogEvent.enterCloseToJunction]
      ∧ (Update (mapWithAt [] [some ⟨"J", 3⟩]) 1 10
          (some [⟨0, 0, 0⟩, ⟨1, 1, 3⟩]) ""
          ⟨some ⟨"J", some JunctionType.JUNCTION, 5⟩⟩).stories
          = ⟨some ⟨"J", some JunctionType.JUNCTION, 3⟩⟩
      ∧ (Update (mapWithAt [] [some ⟨"J", 3⟩]) 1 10
          (some [⟨0, 0, 0⟩, ⟨1, 1, 3⟩]) ""
          ⟨some ⟨"J", some JunctionType.JUNCTION, 5⟩⟩).logs = []
      ∧ (Update (mapWithAt [] [some ⟨"J", 3⟩]) 1 10 (some [⟨0, 0, 0⟩]) ""
          ⟨some ⟨"J", some JunctionType.JUNCTION, 3⟩⟩).stories = ⟨none⟩
      ∧ (Update (mapWithAt [] [some ⟨"J", 3⟩]) 1 10 (some [⟨0, 0, 0⟩]) ""
          ⟨some ⟨"J", some JunctionType.JUNCTION, 3⟩⟩).logs
          = [LogEvent.exitCloseToJunction]) := by
  constructor
  · intro map r m h st p ps
    constructor
    · intro hd
      have hd' : (GetNearestJunction map r m h (p :: ps)).distance ≥ 0 := hd
      constructor <;> simp [Update, if_pos hd']
    · intro hd
      have hd' : ¬ (GetNearestJunction map r m h (p :: ps)).distance ≥ 0 :=
        not_le.mpr hd
      by_cases hs : st.close_to_junction.isSome
      · constructor <;> simp [Update, if_neg hd', hs]
      · have hnone : st.close_to_junction = none :=
          Option.not_isSome_iff_eq_none.mp hs
        constructor <;> simp [Update, if_neg hd', hs, hnone]
  · decide

/-- C6 witness: the general active clause at a cycle whose scan distance is
5 from an absent record (record installed, enter logged), and the general
inactive clause at a junction-free cycle from a present record (record
cleared, exit logged). -/
theorem C6_story_state_machine_witness :
    ((Update (mapWithAt [] [some ⟨"J", 3⟩]) 1 10
        (some [⟨0, 0, 0⟩, ⟨1, 1, 5⟩]) "" ⟨none⟩).stories
        = ⟨some ⟨(GetNearestJunction (mapWithAt [] [some ⟨"J", 3⟩]) 1 10 ""
              [⟨0, 0, 0⟩, ⟨1, 1, 5⟩]).id,
            (GetNearestJunction (mapWithAt [] [some ⟨"J", 3⟩]) 1 10 ""
              [⟨0, 0, 0⟩, ⟨1, 1, 5⟩]).type,
            (GetNearestJunction (mapWithAt [] [some ⟨"J", 3⟩]) 1 10 ""
              [⟨0, 0, 0⟩, ⟨1, 1, 5⟩]).distance⟩⟩
      ∧ (Update (mapWithAt [] [some ⟨"J", 3⟩]) 1 10
          (some [⟨0, 0, 0⟩, ⟨1, 1, 5⟩]) "" ⟨none⟩).logs
          = (if (⟨none⟩ : Stories).close_to_junction.isNone
             then [LogEvent.enterCloseToJunction] else []))
    ∧ ((Update (mapWithAt [] []) 1 10 (some [⟨0, 0, 0⟩]) ""
          ⟨some ⟨"J", some JunctionType.JUNCTION, 3⟩⟩).stories.close_to_junction
          = none
      ∧ (Update (mapWithAt [] []) 1 10 (some [⟨0, 0, 0⟩]) ""
          ⟨some ⟨"J", some JunctionType.JUNCTION, 3⟩⟩).logs
          = (if (⟨some ⟨"J", some JunctionType.JUNCTION, 3⟩⟩ :
              Stories).close_to_junction.isSome
             then [LogEvent.exitCloseToJunction] else [])) :=
  ⟨(C6_story_state_machine.1 (mapWithAt [] [some ⟨"J", 3⟩]) 1 10 "" ⟨none⟩
      ⟨0, 0, 0⟩ [⟨1, 1, 5⟩]).1 (by decide),
    (C6_story_state_machine.1 (mapWithAt [] []) 1 10 ""
      ⟨some ⟨"J", some JunctionType.JUNCTION, 3⟩⟩ ⟨0, 0, 0⟩ []).2 (by decide)⟩

/-- C7: with no trajectory snapshot (null pointer) or an empty one, `Update`
returns early after logging "not ready", leaving both the story record and
the cross-call hysteresis id exactly as they were. -/
theorem C7_not_ready_no_change (map : HDMap) (r m : ℤ) (h : String)
    (st : Stories) :
    Update map r m none h st = ⟨h, st, [LogEvent.planningNotReady]⟩
    ∧ Update map r m (some []) h st = ⟨h, st, [LogEvent.planningNotReady]⟩ :=
  ⟨rfl, rfl⟩

/-- C8: with a fixed trajectory snapshot and fixed map data, iterating the
controller cycle any positive number of times from any starting cross-call
state yields exactly the state (hence story-record contents) of the first
cycle: repeated updates do not drift. -/
theorem C8_update_idempotent (map : HDMap) (r m : ℤ)
    (traj : Option (List PathPoint)) :
    ∀ (n : Nat) (st : String × Stories),
      UpdateIterN map r m traj (n + 1) st = UpdateIterN map r m traj 1 st := by
  intro n
  induction n with
  | zero => intro st; rfl
  | succ n ih =>
      intro st
      have step1 : UpdateIterN map r m traj (n + 1 + 1) st
          = UpdateIterN map r m traj (n + 1) (UpdateStep map r m traj st) := rfl
      rw [step1, ih (UpdateStep map r m traj st)]
      show UpdateStep map r m traj (UpdateStep map r m traj st)
        = UpdateIterN map r m traj 1 st
      rw [UpdateStep_fix]
      rfl

lemma IsPointInJunction_eq_spec (map : HDMap) (r : ℤ) (p : PathPoint) :
    IsPointInJunction map r p
      = specClassifyFirstCandidate (map.GetJunctions p.x p.y r).head? := by
  cases hL : map.GetJunctions p.x p.y r with
  | nil => simp [IsPointInJunction, specClassifyFirstCandidate, hL]
  | cons c rest =>
      cases c with
      | none => simp [IsPointInJunction, specClassifyFirstCandidate, hL]
      | some info =>
          by_cases h3 : info.polygonPointSize ≥ 3
          · simp [IsPointInJunction, specClassifyFirstCandidate, hL, h3,
              Nat.not_lt.mpr h3]
          · simp [IsPointInJunction, specClassifyFirstCandidate, hL, h3,
              Nat.not_le.mp h3]

lemma IsPointInPNCJunction_eq_spec (map : HDMap) (r : ℤ) (p : PathPoint) :
    IsPointInPNCJunction map r p
      = specClassifyFirstCandidate (map.GetPNCJunctions p.x p.y r).head? := by
  cases hL : map.GetPNCJunctions p.x p.y r with
  | nil => simp [IsPointInPNCJunction, specClassifyFirstCandidate, hL]
  | cons c rest =>
      cases c with
      | none => simp [IsPointInPNCJunction, specClassifyFirstCandidate, hL]
      | some info =>
          by_cases h3 : info.polygonPointSize ≥ 3
          · simp [IsPointInPNCJunction, specClassifyFirstCandidate, hL, h3,
              Nat.not_lt.mpr h3]
          · simp [IsPointInPNCJunction, specClassifyFirstCandidate, hL, h3,
              Nat.not_le.mp h3]

lemma specClassify_eq_none_iff (l : List (Option PolygonCandidate)) :
    specClassifyFirstCandidate l.head? = none ↔
      l = [] ∨ l.head? = some none ∨
        ∃ c rest, l = some c :: rest ∧ c.polygonPointSize < 3 := by
  cases l with
  | nil => simp [specClassifyFirstCandidate]
  | cons c rest =>
      cases c with
      | none => simp [specClassifyFirstCandidate]
      | some info =>
          by_cases h3 : info.polygonPointSize < 3 <;>
            simp [specClassifyFirstCandidate, h3]

/-- C9: each point classifier reports "not found" exactly when the map's
candidate list for that point is empty, has a null first entry, or has a
first candidate whose polygon has fewer than 3 vertices; otherwise it reports
the first candidate's id.  Both classifiers compute a function of the head of
the candidate list alone, so later candidates are never considered. -/
theorem C9_first_candidate_classifier (map : HDMap) (r : ℤ) (p : PathPoint) :
    (IsPointInJunction map r p
      = specClassifyFirstCandidate (map.GetJunctions p.x p.y r).head?)
    ∧ (IsPointInPNCJunction map r p
      = specClassifyFirstCandidate (map.GetPNCJunctions p.x p.y r).head?)
    ∧ (IsPointInJunction map r p = none ↔
        (map.GetJunctions p.x p.y r = [] ∨
          (map.GetJunctions p.x p.y r).head? = some none ∨
          ∃ c rest, map.GetJunctions p.x p.y r = some c :: rest ∧
            c.polygonPointSize < 3))
    ∧ (IsPointInPNCJunction map r p = none ↔
        (map.GetPNCJunctions p.x p.y r = [] ∨
          (map.GetPNCJunctions p.x p.y r).head? = some none ∨
          ∃ c rest, map.GetPNCJunctions p.x p.y r = some c :: rest ∧
            c.polygonPointSize < 3))
    ∧ (∀ c rest, map.GetJunctions p.x p.y r = some c :: rest →
        3 ≤ c.polygonPointSize → IsPointInJunction map r p = some c.id)
    ∧ (∀ c rest, map.GetPNCJunctions p.x p.y r = some c :: rest →
        3 ≤ c.polygonPointSize → IsPointInPNCJunction map r p = some c.id) := by
  refine ⟨IsPointInJunction_eq_spec map r p, IsPointInPNCJunction_eq_spec map r p,
    ?_, ?_, ?_, ?_⟩
  · rw [IsPointInJunction_eq_spec map r p]
    exact specClassify_eq_none_iff _
  · rw [IsPointInPNCJunction_eq_spec map r p]
    exact specClassify_eq_none_iff _
  · intro c rest hL h3
    rw [IsPointInJunction_eq_spec map r p, hL]
    simp [specClassifyFirstCandidate, Nat.not_lt.mpr h3]
  · intro c rest hL h3
    rw [IsPointInPNCJunction_eq_spec map r p, hL]
    simp [specClassifyFirstCandidate, Nat.not_lt.mpr h3]

/-- C9 witness: on a map whose plain candidate list is
`[valid "J", null]` and whose PNC candidate list is
`[degenerate "P" (2 vertices), valid "Q"]`, the plain classifier returns the
first candidate's id "J" and the PNC classifier returns "not found" — the
valid later candidate "Q" is never considered. -/
theorem C9_first_candidate_classifier_witness :
    IsPointInJunction
        ⟨fun _ _ _ => [some ⟨"P", 2⟩, some ⟨"Q", 5⟩],
          fun _ _ _ => [some ⟨"J", 4⟩, none]⟩ 1 ⟨0, 0, 0⟩ = some "J"
    ∧ (IsPointInPNCJunction
        ⟨fun _ _ _ => [some ⟨"P", 2⟩, some ⟨"Q", 5⟩],
          fun _ _ _ => [some ⟨"J", 4⟩, none]⟩ 1 ⟨0, 0, 0⟩ = none ↔
        ([some (⟨"P", 2⟩ : PolygonCandidate), some ⟨"Q", 5⟩] = [] ∨
          ([some (⟨"P", 2⟩ : PolygonCandidate), some ⟨"Q", 5⟩]).head? = some none ∨
          ∃ c rest,
            [some (⟨"P", 2⟩ : PolygonCandidate), some ⟨"Q", 5⟩] = some c :: rest ∧
            c.polygonPointSize < 3)) :=
  ⟨(C9_first_candidate_classifier
      ⟨fun _ _ _ => [some ⟨"P", 2⟩, some ⟨"Q", 5⟩],
        fun _ _ _ => [some ⟨"J", 4⟩, none]⟩ 1 ⟨0, 0, 0⟩).2.2.2.2.1
      ⟨"J", 4⟩ [none] (by decide) (by decide),
    (C9_first_candidate_classifier
      ⟨fun _ _ _ => [some ⟨"P", 2⟩, some ⟨"Q", 5⟩],
        fun _ _ _ => [some ⟨"J", 4⟩, none]⟩ 1 ⟨0, 0, 0⟩).2.2.2.1⟩

/-- C10: on a trajectory whose arc lengths never drop below the first
point's, the scan assigns the `type` output exactly when it reports a
non-negative distance; and whenever the controller's update leaves the story
record present, the record's fields are exactly the current scan's outputs,
its type was assigned by a decisive branch this cycle (so it is JUNCTION or
PNC_JUNCTION), and the scan distance was non-negative — the unassigned
`type` is never read into the record. -/
theorem C10_type_assigned_iff_found (map : HDMap) (r m : ℤ) (h : String)
    (p : PathPoint) (ps : List PathPoint) (st : Stories)
    (hmono : ∀ q ∈ p :: ps, p.s ≤ q.s) :
    ((GetNearestJunction map r m h (p :: ps)).type.isSome
      ↔ 0 ≤ (GetNearestJunction map r m h (p :: ps)).distance)
    ∧ (∀ story,
        (Update map r m (some (p :: ps)) h st).stories.close_to_junction
          = some story →
        story.id = (GetNearestJunction map r m h (p :: ps)).id
        ∧ story.type = (GetNearestJunction map r m h (p :: ps)).type
        ∧ story.distance = (GetNearestJunction map r m h (p :: ps)).distance
        ∧ 0 ≤ (GetNearestJunction map r m h (p :: ps)).distance
        ∧ (story.type = some JunctionType.JUNCTION ∨
            story.type = some JunctionType.PNC_JUNCTION)) := by
  have hiff : (GetNearestJunction map r m h (p :: ps)).type.isSome
      ↔ 0 ≤ (GetNearestJunction map r m h (p :: ps)).distance := by
    show (GetNearestJunctionLoop map r m p.s h (p :: ps)).type.isSome
      ↔ 0 ≤ (GetNearestJunctionLoop map r m p.s h (p :: ps)).distance
    rcases GetNearestJunctionLoop_cases map r m p.s (p :: ps) h with
      ⟨ht, _, hd⟩ | ⟨q, hq, _, hqd, hqt⟩
    · rw [ht, hd]; simp
    · rw [hqd]
      simp [Option.isSome_iff_ne_none, hqt, sub_nonneg.mpr (hmono q hq)]
  refine ⟨hiff, fun story hstory => ?_⟩
  by_cases hd : (GetNearestJunction map r m h (p :: ps)).distance ≥ 0
  · have hst : (Update map r m (some (p :: ps)) h st).stories
        = ⟨some ⟨(GetNearestJunction map r m h (p :: ps)).id,
            (GetNearestJunction map r m h (p :: ps)).type,
            (GetNearestJunction map r m h (p :: ps)).distance⟩⟩ := by
      simp [Update, if_pos hd]
    rw [hst] at hstory
    have hstory' : story = ⟨(GetNearestJunction map r m h (p :: ps)).id,
        (GetNearestJunction map r m h (p :: ps)).type,
        (GetNearestJunction map r m h (p :: ps)).distance⟩ :=
      Option.some.inj hstory.symm ▸ (Option.some.inj hstory.symm).symm
    have hsome : (GetNearestJunction map r m h (p :: ps)).type.isSome :=
      hiff.mpr hd
    rcases htv : (GetNearestJunction map r m h (p :: ps)).type with _ | t
    · rw [htv] at hsome; simp at hsome
    · refine ⟨by rw [hstory'], by rw [hstory']; exact htv, by rw [hstory'],
        hd, ?_⟩
      have htype : story.type = some t := by rw [hstory']; exact htv
      rw [htype]
      cases t
      · exact Or.inl rfl
      · exact Or.inr rfl
  · exfalso
    by_cases hs : st.close_to_junction.isSome
    · have : (Update map r m (some (p :: ps)) h st).stories = ⟨none⟩ := by
        simp [Update, if_neg hd, hs]
      rw [this] at hstory
      simp at hstory
    · have hnone : st.close_to_junction = none :=
        Option.not_isSome_iff_eq_none.mp hs
      have : (Update map r m (some (p :: ps)) h st).stories = st := by
        simp [Update, if_neg hd, hs]
      rw [this] at hstory
      rw [hnone] at hstory
      simp at hstory

/-- C10 witness: on a sorted two-point trajectory whose second point lies in
PNC junction "P", the scanned type is assigned iff the distance is
non-negative (both hold), and the story record installed by the update holds
exactly the scanned fields. -/
theorem C10_type_assigned_iff_found_witness :
    ((GetNearestJunction (mapWithAt [some ⟨"P", 3⟩] []) 1 10 ""
        [⟨0, 0, 0⟩, ⟨1, 1, 5⟩]).type.isSome
      ↔ 0 ≤ (GetNearestJunction (mapWithAt [some ⟨"P", 3⟩] []) 1 10 ""
        [⟨0, 0, 0⟩, ⟨1, 1, 5⟩]).distance)
    ∧ ((⟨"P", some JunctionType.PNC_JUNCTION, 5⟩ : CloseToJunction).id
        = (GetNearestJunction (mapWithAt [some ⟨"P", 3⟩] []) 1 10 ""
          [⟨0, 0, 0⟩, ⟨1, 1, 5⟩]).id
      ∧ (⟨"P", some JunctionType.PNC_JUNCTION, 5⟩ : CloseToJunction).type
        = (GetNearestJunction (mapWithAt [some ⟨"P", 3⟩] []) 1 10 ""
          [⟨0, 0, 0⟩, ⟨1, 1, 5⟩]).type
      ∧ (⟨"P", some JunctionType.PNC_JUNCTION, 5⟩ : CloseToJunction).distance
        = (GetNearestJunction (mapWithAt [some ⟨"P", 3⟩] []) 1 10 ""
          [⟨0, 0, 0⟩, ⟨1, 1, 5⟩]).distance
      ∧ 0 ≤ (GetNearestJunction (mapWithAt [some ⟨"P", 3⟩] []) 1 10 ""
          [⟨0, 0, 0⟩, ⟨1, 1, 5⟩]).distance
      ∧ ((⟨"P", some JunctionType.PNC_JUNCTION, 5⟩ : CloseToJunction).type
          = some JunctionType.JUNCTION ∨
        (⟨"P", some JunctionType.PNC_JUNCTION, 5⟩ : CloseToJunction).type
          = some JunctionType.PNC_JUNCTION)) :=
  ⟨(C10_type_assigned_iff_found (mapWithAt [some ⟨"P", 3⟩] []) 1 10 ""
      ⟨0, 0, 0⟩ [⟨1, 1, 5⟩] ⟨none⟩ (by decide)).1,
    (C10_type_assigned_iff_found (mapWithAt [some ⟨"P", 3⟩] []) 1 10 ""
      ⟨0, 0, 0⟩ [⟨1, 1, 5⟩] ⟨none⟩ (by decide)).2
      ⟨"P", some JunctionType.PNC_JUNCTION, 5⟩ (by decide)⟩

end CloseToJunctionTellerModel
